import Mathlib

/-
Verification of the ccystl raw-memory layer (uninitialized.h, construct.h,
memory.h, allocator.h) against its natural-language specification.

Shallow embedding conventions:
- A destination region is a list of slots, index 0 corresponding to the
  iterator `result` (resp. `first`) passed to the C++ call.
- A slot is `raw` (no live object) or `live v` (holds a constructed value v).
- Injected failures: `failAt = some k` means the k-th constructor call
  (0-indexed, counted within the bulk call) throws; `none` means no
  constructor ever throws.
- A bulk operation returns the final memory state together with an
  `Option` result: `some r` models a normal return carrying r (the index of
  the returned iterator, relative to `result`), `none` models the original
  exception propagating out of the call.
- Destructor invocations are traced in `dtorCalls` (slot indices, in
  invocation order); `rawDestroys` counts destructor invocations on slots
  that held no live object (undefined behavior in C++).
- Compile-time triviality tags (std::true_type / std::false_type) become
  Bool parameters: `td` = is_trivially_destructible,
  `trivialAssign` = is_trivially_copy_assignable,
  `trivialDefault` = is_trivially_default_constructible.
-/

/-- State of one memory slot of element type α: raw storage or a live object. -/
inductive Slot (α : Type) where
  | raw : Slot α
  | live : α → Slot α
deriving DecidableEq

/-- A contiguous destination region plus an observation trace:
`dest` is the slot array (index 0 = the C++ iterator `result`),
`dtorCalls` records destructor invocations in order, and `rawDestroys`
counts destructor invocations on slots with no live object (UB in C++). -/
structure MemState (α : Type) where
  dest : List (Slot α)
  dtorCalls : List Nat
  rawDestroys : Nat
deriving DecidableEq

/-- A region of n raw slots with an empty trace. -/
def mkRaw (α : Type) (n : Nat) : MemState α :=
  { dest := List.replicate n Slot.raw, dtorCalls := [], rawDestroys := 0 }

/-- An empty region with an empty trace. -/
def emptyMem (α : Type) : MemState α :=
  { dest := [], dtorCalls := [], rawDestroys := 0 }

/-- Write a live value into slot i (placement construction or flat byte
copy both leave the slot holding the value). -/
def setLive (s : MemState α) (i : Nat) (v : α) : MemState α :=
  { s with dest := s.dest.set i (Slot.live v) }

/-- Effect of invoking the destructor on slot i (ccystl::destroy on a
pointer to a non-trivially-destructible object): a live slot becomes raw;
a slot with no live object records undefined behavior in `rawDestroys`. -/
def destroyAt (s : MemState α) (i : Nat) : MemState α :=
  match s.dest[i]? with
  | some (Slot.live _) =>
    { s with dest := s.dest.set i Slot.raw, dtorCalls := s.dtorCalls ++ [i] }
  | _ =>
    { s with dtorCalls := s.dtorCalls ++ [i], rawDestroys := s.rawDestroys + 1 }

/-- construct.h destroy_one(ptr, tag): trivially destructible types are a
no-op dispatch; otherwise the destructor runs when ptr is non-null.
`p = none` models a null pointer. -/
def destroy_one (td : Bool) (s : MemState α) (p : Option Nat) : MemState α :=
  if td then s
  else
    match p with
    | none => s
    | some i => destroyAt s i

/-- construct.h destroy(Ty* ptr): dispatches on is_trivially_destructible. -/
def destroy (td : Bool) (s : MemState α) (p : Option Nat) : MemState α :=
  destroy_one td s p

/-- Forward destruction loop of construct.h destroy_cat(first, last,
false_type): destroys slots i, i+1, ..., i+m-1 through ccystl::destroy. -/
def destroyFwd (td : Bool) : MemState α → Nat → Nat → MemState α
  | s, _, 0 => s
  | s, i, m + 1 => destroyFwd td (destroy td s (some i)) (i + 1) m

/-- construct.h destroy_cat(first, last, tag): no-op on the true_type tag,
forward per-element destruction on the false_type tag. `m` is the count
last - first. -/
def destroy_cat (td : Bool) (s : MemState α) (i m : Nat) : MemState α :=
  if td then s else destroyFwd td s i m

/-- construct.h destroy(first, last): dispatches to destroy_cat on
is_trivially_destructible of the value type. -/
def destroy_range (td : Bool) (s : MemState α) (i m : Nat) : MemState α :=
  destroy_cat td s i m

/-! ### Bulk region algorithms (uninitialized.h), non-trivial paths -/

/-- Forward construction loop of unchecked_uninit_copy(false_type):
`for (; first != last; ++first, ++cur) construct(&*cur, *first)`.
Returns (state, cur, whether a constructor threw). With result = 0 the
index cur equals the number of constructor calls made so far. -/
def copyLoop (failAt : Option Nat) : List α → Nat → MemState α → MemState α × Nat × Bool
  | [], cur, s => (s, cur, false)
  | v :: rest, cur, s =>
    if failAt = some cur then (s, cur, true)
    else copyLoop failAt rest (cur + 1) (setLive s cur v)

/-- Backward rollback loop of the catch block in unchecked_uninit_copy and
unchecked_uninit_copy_n: `for (; result != cur; --cur) destroy(&*cur);`
with result = 0 this destroys slots cur, cur-1, ..., 1 and leaves cur = 0. -/
def copyRollbackAux (td : Bool) : MemState α → Nat → MemState α
  | s, 0 => s
  | s, c + 1 => copyRollbackAux td (destroy td s (some (c + 1))) c

/-- uninitialized.h unchecked_uninit_copy(first, last, result, false_type).
The catch block runs the backward rollback loop and does not rethrow, so
the function always returns normally; after a caught exception cur has
been decremented back to result and `return cur` yields index 0. -/
def unchecked_uninit_copy (td : Bool) (failAt : Option Nat) (src : List α)
    (s : MemState α) : MemState α × Option Nat :=
  let r := copyLoop failAt src 0 s
  if r.2.2 then (copyRollbackAux td r.1 r.2.1, some 0)
  else (r.1, some r.2.1)

/-- Forward construction loop of unchecked_uninit_copy_n(false_type):
`for (; n > 0; --n, ++cur, ++first) construct(&*cur, *first)`.
The source list and the count advance together; an exhausted source with
n > 0 is a caller-contract violation and is modelled as stopping. -/
def copyNLoop (failAt : Option Nat) : Nat → List α → Nat → MemState α → MemState α × Nat × Bool
  | 0, _, cur, s => (s, cur, false)
  | _ + 1, [], cur, s => (s, cur, false)
  | m + 1, v :: rest, cur, s =>
    if failAt = some cur then (s, cur, true)
    else copyNLoop failAt m rest (cur + 1) (setLive s cur v)

/-- uninitialized.h unchecked_uninit_copy_n(first, n, result, false_type):
same backward, non-rethrowing catch block as unchecked_uninit_copy. -/
def unchecked_uninit_copy_n (td : Bool) (failAt : Option Nat) (n : Nat) (src : List α)
    (s : MemState α) : MemState α × Option Nat :=
  let r := copyNLoop failAt n src 0 s
  if r.2.2 then (copyRollbackAux td r.1 r.2.1, some 0)
  else (r.1, some r.2.1)

/-- Forward construction loop shared by unchecked_uninit_fill and
unchecked_uninit_fill_n (false_type): constructs `value` into slots
cur, cur+1, ... for m steps. Returns (state, cur, whether a ctor threw). -/
def fillLoop (failAt : Option Nat) (value : α) : Nat → Nat → MemState α → MemState α × Nat × Bool
  | 0, cur, s => (s, cur, false)
  | m + 1, cur, s =>
    if failAt = some cur then (s, cur, true)
    else fillLoop failAt value m (cur + 1) (setLive s cur value)

/-- uninitialized.h unchecked_uninit_fill(first, last, value, false_type):
the catch block destroys [first, cur) forward and does not rethrow; the
function returns void (modelled as `some ()` for a normal return). `n` is
the count last - first. -/
def unchecked_uninit_fill (td : Bool) (failAt : Option Nat) (n : Nat) (value : α)
    (s : MemState α) : MemState α × Option Unit :=
  let r := fillLoop failAt value n 0 s
  if r.2.2 then (destroyFwd td r.1 0 r.2.1, some ())
  else (r.1, some ())

/-- uninitialized.h unchecked_uninit_fill_n(first, n, value, false_type):
the catch block destroys [first, cur) forward and does not rethrow;
`return cur` then yields the failure index. -/
def unchecked_uninit_fill_n (td : Bool) (failAt : Option Nat) (n : Nat) (value : α)
    (s : MemState α) : MemState α × Option Nat :=
  let r := fillLoop failAt value n 0 s
  if r.2.2 then (destroyFwd td r.1 0 r.2.1, some r.2.1)
  else (r.1, some r.2.1)

/-- Forward construction loop of unchecked_uninit_move(false_type); in the
model move-construction transfers the source value like copy-construction
(the moved-from source is not tracked, matching the spec note that
moved-from sources are not restored). -/
def moveLoop (failAt : Option Nat) : List α → Nat → MemState α → MemState α × Nat × Bool
  | [], cur, s => (s, cur, false)
  | v :: rest, cur, s =>
    if failAt = some cur then (s, cur, true)
    else moveLoop failAt rest (cur + 1) (setLive s cur v)

/-- uninitialized.h unchecked_uninit_move(first, last, result, false_type):
the catch block calls ccystl::destroy(result, cur) (forward range destroy)
and does not rethrow; `return cur` then yields the failure index. -/
def unchecked_uninit_move (td : Bool) (failAt : Option Nat) (src : List α)
    (s : MemState α) : MemState α × Option Nat :=
  let r := moveLoop failAt src 0 s
  if r.2.2 then (destroy_range td r.1 0 r.2.1, some r.2.1)
  else (r.1, some r.2.1)

/-- Forward construction loop of unchecked_uninit_move_n(false_type). -/
def moveNLoop (failAt : Option Nat) : Nat → List α → Nat → MemState α → MemState α × Nat × Bool
  | 0, _, cur, s => (s, cur, false)
  | _ + 1, [], cur, s => (s, cur, false)
  | m + 1, v :: rest, cur, s =>
    if failAt = some cur then (s, cur, true)
    else moveNLoop failAt m rest (cur + 1) (setLive s cur v)

/-- uninitialized.h unchecked_uninit_move_n(first, n, result, false_type):
the catch block destroys [result, cur) forward and THEN RETHROWS (`throw;`),
the only bulk operation in the file that re-signals; `none` models the
exception propagating to the caller. -/
def unchecked_uninit_move_n (td : Bool) (failAt : Option Nat) (n : Nat) (src : List α)
    (s : MemState α) : MemState α × Option Nat :=
  let r := moveNLoop failAt n src 0 s
  if r.2.2 then (destroyFwd td r.1 0 r.2.1, none)
  else (r.1, some r.2.1)

/-! ### Trivial paths and dispatchers needed by the claims -/

/-- Flat element writes of a trivial bulk copy: writes src[i], src[i+1], ...
into slots i, i+1, ... for m steps (no constructor calls; for trivially
copyable types the bytes then hold the value). -/
def flatWriteN (src : List α) : Nat → Nat → MemState α → MemState α
  | 0, _, s => s
  | m + 1, i, s =>
    match src[i]? with
    | some v => flatWriteN src m (i + 1) (setLive s i v)
    | none => s

/-- Flat element writes of a trivial bulk fill: writes `value` into slots
i, i+1, ... for m steps. -/
def flatFillN (value : α) : Nat → Nat → MemState α → MemState α
  | 0, _, s => s
  | m + 1, i, s => flatFillN value m (i + 1) (setLive s i value)

/-- Modelled from the spec: ccystl::copy_n (algobase.h is not among the
provided sources). The spec trivial path delegates to a flat copy over the
byte range; copy_n returns a pair whose components are the post-source and
post-destination positions. -/
def copy_n (src : List α) (n : Nat) (s : MemState α) : MemState α × Nat × Nat :=
  (flatWriteN src n 0 s, n, n)

/-- Modelled from the spec: ccystl::fill_n (algobase.h is not among the
provided sources). The spec trivial path delegates to a flat fill over the
byte range; fill_n returns the post-destination position. -/
def fill_n (value : α) (n : Nat) (s : MemState α) : MemState α × Nat :=
  (flatFillN value n 0 s, n)

/-- uninitialized.h uninitialized_copy_n: dispatches on
is_trivially_copy_assignable of the source value type; the trivial path
returns ccystl::copy_n(first, n, result).second. -/
def uninitialized_copy_n (trivialAssign td : Bool) (failAt : Option Nat) (n : Nat)
    (src : List α) (s : MemState α) : MemState α × Option Nat :=
  if trivialAssign then ((copy_n src n s).1, some (copy_n src n s).2.2)
  else unchecked_uninit_copy_n td failAt n src s

/-- uninitialized.h uninitialized_fill_n: dispatches on
is_trivially_copy_assignable of the value type; the trivial path returns
ccystl::fill_n(first, n, value). -/
def uninitialized_fill_n (trivialAssign td : Bool) (failAt : Option Nat) (n : Nat)
    (value : α) (s : MemState α) : MemState α × Option Nat :=
  if trivialAssign then ((fill_n value n s).1, some (fill_n value n s).2)
  else unchecked_uninit_fill_n td failAt n value s

/-! ### Claim C1 and C2 evaluation theorems -/

/-- Claim C1 (code_bug evidence): running unchecked_uninit_copy on a
2-element source over 2 raw slots with the constructor of element k = 1
throwing. The claim requires the rollback to destroy exactly slot 0 (the
only slot made live) and leave slot 1 untouched. The code instead leaves
slot 0 live, invokes the destructor once on the never-constructed slot 1
(dtorCalls = [1], rawDestroys = 1), and returns normally. -/
theorem C1_copy_rollback_wrong_range :
    unchecked_uninit_copy false (some 1) [10, 20]
      { dest := [Slot.raw, Slot.raw], dtorCalls := [], rawDestroys := 0 } =
    ({ dest := [Slot.live 10, Slot.raw], dtorCalls := [1], rawDestroys := 1 },
      some 0) := by
  decide

/-- Claim C2 (code_bug evidence): with the constructor of element k = 1
throwing, unchecked_uninit_copy returns normally (`some 0`, the decremented
cur) instead of propagating the failure (`none`): the catch block has no
rethrow, so the original failure is swallowed by this layer. -/
theorem C2_copy_swallows_failure :
    (unchecked_uninit_copy false (some 1) [10, 20]
      { dest := [Slot.raw, Slot.raw], dtorCalls := [], rawDestroys := 0 }).2 =
    some 0 := by
  decide

/-! ### Degrading buffer acquisition (memory.h) -/

/-- Shrink-and-retry allocation loop shared by memory.h get_buffer_helper
and temporary_buffer::allocate_buffer:
`while (len > 0) { if (malloc(len * sizeof(T))) succeed; len /= 2; }`.
`canAlloc len` is the malloc oracle; the pair is (block obtained?, granted
length), with (false, 0) when the request shrinks to zero. -/
def alloc_loop (canAlloc : Nat → Bool) (len : Nat) : Bool × Nat :=
  if h : 0 < len then
    if canAlloc len then (true, len)
    else alloc_loop canAlloc (len / 2)
  else (false, 0)
termination_by len
decreasing_by omega

/-- memory.h get_buffer_helper(len, T*): clamps len to INT_MAX / sizeof(T)
(the parameter maxLen) when it exceeds that bound, then runs the halving
retry loop. -/
def get_buffer_helper (canAlloc : Nat → Bool) (maxLen len : Nat) : Bool × Nat :=
  alloc_loop canAlloc (if maxLen < len then maxLen else len)

/-- memory.h temporary_buffer::allocate_buffer(): records original_len
(the first component) as the unclamped request, then clamps and runs the
same halving retry loop as get_buffer_helper. -/
def allocate_buffer (canAlloc : Nat → Bool) (maxLen len : Nat) : Nat × Bool × Nat :=
  (len, alloc_loop canAlloc (if maxLen < len then maxLen else len))

theorem alloc_loop_spec (canAlloc : Nat → Bool) (len : Nat) :
    (alloc_loop canAlloc len = (false, 0) ∧
      ∀ j, 0 < len / 2 ^ j → canAlloc (len / 2 ^ j) = false) ∨
    (∃ i, alloc_loop canAlloc len = (true, len / 2 ^ i) ∧ 0 < len / 2 ^ i ∧
      canAlloc (len / 2 ^ i) = true ∧ ∀ j, j < i → canAlloc (len / 2 ^ j) = false) := by
  induction len using Nat.strong_induction_on with
  | _ len ih =>
    rw [alloc_loop]
    by_cases h : 0 < len
    · by_cases hc : canAlloc len
      · right
        refine ⟨0, ?_, ?_, ?_, ?_⟩
        · simp [h, hc]
        · simpa using h
        · simpa using hc
        · omega
      · have hdiv : len / 2 < len := Nat.div_lt_self h (by omega)
        have key : ∀ j, len / 2 / 2 ^ j = len / 2 ^ (j + 1) := by
          intro j
          rw [Nat.div_div_eq_div_mul, pow_succ, Nat.mul_comm]
        rcases ih (len / 2) hdiv with ⟨heq, hall⟩ | ⟨i, heq, hpos, hcan, hprev⟩
        · left
          constructor
          · simp [h, hc, heq]
          · intro j hj
            cases j with
            | zero =>
              simpa using (by simpa using hc : canAlloc len = false)
            | succ m =>
              have := hall m
              rw [key m] at this
              exact this (by simpa [← key m] using hj)
        · right
          refine ⟨i + 1, ?_, ?_, ?_, ?_⟩
          · rw [← key i]
            simpa [h, hc] using heq
          · rw [← key i]; exact hpos
          · rw [← key i]; exact hcan
          · intro j hj
            cases j with
            | zero => simpa using (by simpa using hc : canAlloc len = false)
            | succ m =>
              have := hprev m (by omega)
              rw [key m] at this
              exact this
    · left
      have hz : len = 0 := by omega
      subst hz
      simp

/-- Claim C3: temporary-buffer acquisition clamps an oversized request down
to maxLen (= INT_MAX / sizeof(T)), then repeatedly attempts allocation,
halving by integer division after each failure, until success or zero.
The result is always a normal pair, never an error: either (false, 0)
(null block, granted 0) after every positive halving descendant of the
clamped request failed to allocate, or a block with nonzero granted length
equal to a power-of-two-halving descendant of the clamped request, all
strictly earlier attempts having failed. allocate_buffer records the
unclamped request and runs the identical loop. -/
theorem C3_get_buffer_helper_halving (canAlloc : Nat → Bool) (maxLen len : Nat) :
    allocate_buffer canAlloc maxLen len = (len, get_buffer_helper canAlloc maxLen len) ∧
    ((if maxLen < len then maxLen else len) ≤ len) ∧
    (maxLen < len → (if maxLen < len then maxLen else len) = maxLen) ∧
    ((get_buffer_helper canAlloc maxLen len = (false, 0) ∧
        ∀ j, 0 < (if maxLen < len then maxLen else len) / 2 ^ j →
          canAlloc ((if maxLen < len then maxLen else len) / 2 ^ j) = false) ∨
      (∃ i, get_buffer_helper canAlloc maxLen len =
          (true, (if maxLen < len then maxLen else len) / 2 ^ i) ∧
        0 < (if maxLen < len then maxLen else len) / 2 ^ i ∧
        canAlloc ((if maxLen < len then maxLen else len) / 2 ^ i) = true ∧
        ∀ j, j < i → canAlloc ((if maxLen < len then maxLen else len) / 2 ^ j) = false)) := by
  refine ⟨rfl, ?_, ?_, ?_⟩
  · by_cases h : maxLen < len
    · simp [h]; omega
    · simp [h]
  · intro h; simp [h]
  · exact alloc_loop_spec canAlloc (if maxLen < len then maxLen else len)

/-! ### Effect of the flat write loops on the slot array -/

theorem flatFillN_spec (v : α) : ∀ (m i : Nat) (s : MemState α),
    ((flatFillN v m i s).dest.length = s.dest.length) ∧
    (∀ j, j < i → (flatFillN v m i s).dest[j]? = s.dest[j]?) ∧
    (∀ j, i ≤ j → j < i + m → j < s.dest.length →
      (flatFillN v m i s).dest[j]? = some (Slot.live v)) := by
  intro m
  induction m with
  | zero =>
    intro i s
    exact ⟨rfl, fun j _ => rfl, fun j h1 h2 _ => absurd h2 (by omega)⟩
  | succ m ih =>
    intro i s
    have hlen2 : (setLive s i v).dest.length = s.dest.length := by
      simp [setLive]
    obtain ⟨ihlen, ihlt, ihin⟩ := ih (i + 1) (setLive s i v)
    have hstep : flatFillN v (m + 1) i s = flatFillN v m (i + 1) (setLive s i v) := rfl
    refine ⟨?_, ?_, ?_⟩
    · rw [hstep, ihlen, hlen2]
    · intro j hj
      rw [hstep, ihlt j (by omega)]
      exact List.getElem?_set_ne (by omega)
    · intro j h1 h2 h3
      rw [hstep]
      rcases Nat.eq_or_lt_of_le h1 with heq | hlt
      · subst heq
        rw [ihlt i (by omega)]
        exact List.getElem?_set_self h3
      · exact ihin j (by omega) (by omega) (by rw [hlen2]; exact h3)

theorem flatWriteN_spec (src : List α) : ∀ (m i : Nat) (s : MemState α),
    i + m ≤ src.length →
    ((flatWriteN src m i s).dest.length = s.dest.length) ∧
    (∀ j, j < i → (flatWriteN src m i s).dest[j]? = s.dest[j]?) ∧
    (∀ j, i ≤ j → j < i + m → j < s.dest.length →
      (flatWriteN src m i s).dest[j]? = (src[j]?).map Slot.live) := by
  intro m
  induction m with
  | zero =>
    intro i s hsrc
    exact ⟨rfl, fun j _ => rfl, fun j h1 h2 _ => absurd h2 (by omega)⟩
  | succ m ih =>
    intro i s hsrc
    cases hsv : src[i]? with
    | none =>
      exfalso
      have := List.getElem?_eq_none_iff.mp hsv
      omega
    | some v =>
      have hstep : flatWriteN src (m + 1) i s = flatWriteN src m (i + 1) (setLive s i v) := by
        simp only [flatWriteN, hsv]
      have hlen2 : (setLive s i v).dest.length = s.dest.length := by
        simp [setLive]
      obtain ⟨ihlen, ihlt, ihin⟩ := ih (i + 1) (setLive s i v) (by omega)
      refine ⟨?_, ?_, ?_⟩
      · rw [hstep, ihlen, hlen2]
      · intro j hj
        rw [hstep, ihlt j (by omega)]
        exact List.getElem?_set_ne (by omega)
      · intro j h1 h2 h3
        rw [hstep]
        rcases Nat.eq_or_lt_of_le h1 with heq | hlt
        · subst heq
          rw [ihlt i (by omega), hsv]
          exact List.getElem?_set_self h3
        · exact ihin j (by omega) (by omega) (by rw [hlen2]; exact h3)

/-- With no injected constructor failure the per-element fill loop writes
exactly like the flat fill and reports no exception. -/
theorem fillLoop_none (v : α) : ∀ (m cur : Nat) (s : MemState α),
    fillLoop none v m cur s = (flatFillN v m cur s, cur + m, false) := by
  intro m
  induction m with
  | zero => intro cur s; rfl
  | succ m ih =>
    intro cur s
    simp only [fillLoop, flatFillN]
    rw [if_neg (by simp), ih]
    have h : cur + 1 + m = cur + (m + 1) := by omega
    rw [h]

/-- Both dispatch paths of uninitialized_fill_n agree with the flat fill
when no constructor failure occurs, and both return the post-destination
position n. -/
theorem uninitialized_fill_n_none (tA td : Bool) (n : Nat) (v : α) (s : MemState α) :
    uninitialized_fill_n tA td none n v s = (flatFillN v n 0 s, some n) := by
  cases tA with
  | true => rfl
  | false =>
    show unchecked_uninit_fill_n td none n v s = _
    unfold unchecked_uninit_fill_n
    rw [fillLoop_none]
    simp

/-- Claim C5: for every n and a trivially-copy-assignable element type,
uninitialized_copy_n over n source elements takes the trivial path, yields
a destination whose slots [0, n) hold exactly the corresponding source
elements, and returns the position exactly n slots past result (= index n). -/
theorem C5_uninitialized_copy_n_trivial (src : List α) (n : Nat) (s : MemState α)
    (td : Bool) (failAt : Option Nat) (h1 : n ≤ src.length) (h2 : n ≤ s.dest.length) :
    (uninitialized_copy_n true td failAt n src s).2 = some n ∧
    ∀ i, i < n → (uninitialized_copy_n true td failAt n src s).1.dest[i]? =
      (src[i]?).map Slot.live := by
  constructor
  · rfl
  · intro i hi
    have h := flatWriteN_spec src n 0 s (by omega)
    exact h.2.2 i (by omega) (by omega) (by omega)

/-- Witness for claim C5 at src = [3, 4], n = 2, a fresh 2-slot region. -/
theorem C5_uninitialized_copy_n_trivial_witness :
    (uninitialized_copy_n true false none 2 [3, 4] (mkRaw Nat 2)).2 = some 2 ∧
    ∀ i, i < 2 → (uninitialized_copy_n true false none 2 [3, 4] (mkRaw Nat 2)).1.dest[i]? =
      ((([3, 4] : List Nat))[i]?).map Slot.live :=
  C5_uninitialized_copy_n_trivial [3, 4] 2 (mkRaw Nat 2) false none (by decide) (by decide)

/-! ### temporary_buffer (memory.h) -/

/-- The member state of a memory.h temporary_buffer: original_len (the
recorded request), len (granted length), whether the block pointer is
non-null, and the slot states of the owned block. -/
structure TmpBufState (α : Type) where
  original_len : Nat
  len : Nat
  buffer : Bool
  mem : MemState α
deriving DecidableEq

/-- memory.h temporary_buffer::initialize_buffer(value, tag): a no-op when
T is trivially default constructible; otherwise
ccystl::uninitialized_fill_n(buffer, len, value), which itself dispatches
on is_trivially_copy_assignable. No constructor failure is injected here;
the constructor model injects fill failure separately. -/
def initialize_buffer (trivialDefault trivialAssign td : Bool) (value : α) (len : Nat)
    (s : MemState α) : MemState α :=
  if trivialDefault then s
  else (uninitialized_fill_n trivialAssign td none len value s).1

/-- memory.h temporary_buffer constructor:
`try { len = distance(first, last); allocate_buffer();
       if (len > 0) initialize_buffer(*first, trait); }
 catch (...) { free(buffer); buffer = nullptr; len = 0; }`.
`distanceResult` abstracts ccystl::distance (iterator layer not among the
provided sources): `ok d` yields the count d, `error ()` models a failure
signaled while computing the distance. `sample` is *first. `fillSignals`
injects a failure signaled out of the element-initialization step; the
catch block then frees the block and leaves the buffer null and empty. -/
def temporary_buffer_ctor (canAlloc : Nat → Bool) (maxLen : Nat)
    (distanceResult : Except Unit Nat) (sample : α)
    (trivialDefault trivialAssign td : Bool) (fillSignals : Bool) : TmpBufState α :=
  match distanceResult with
  | Except.error _ => { original_len := 0, len := 0, buffer := false, mem := emptyMem α }
  | Except.ok d =>
    if 0 < (allocate_buffer canAlloc maxLen d).2.2 then
      if fillSignals then
        { original_len := (allocate_buffer canAlloc maxLen d).1, len := 0, buffer := false,
          mem := emptyMem α }
      else
        { original_len := (allocate_buffer canAlloc maxLen d).1,
          len := (allocate_buffer canAlloc maxLen d).2.2,
          buffer := (allocate_buffer canAlloc maxLen d).2.1,
          mem := initialize_buffer trivialDefault trivialAssign td sample
            ((allocate_buffer canAlloc maxLen d).2.2)
            (mkRaw α ((allocate_buffer canAlloc maxLen d).2.2)) }
    else
      { original_len := (allocate_buffer canAlloc maxLen d).1,
        len := (allocate_buffer canAlloc maxLen d).2.2,
        buffer := (allocate_buffer canAlloc maxLen d).2.1,
        mem := emptyMem α }

/-- A zero granted length comes with a null block. -/
theorem alloc_loop_zero_flag (canAlloc : Nat → Bool) (len : Nat)
    (h : (alloc_loop canAlloc len).2 = 0) : (alloc_loop canAlloc len).1 = false := by
  rcases alloc_loop_spec canAlloc len with ⟨heq, _⟩ | ⟨i, heq, hpos, _, _⟩
  · rw [heq]
  · rw [heq] at h
    simp at h
    omega

/-- Destroying an empty range is a no-op for either triviality tag. -/
theorem destroy_range_zero (td : Bool) (s : MemState α) (i : Nat) :
    destroy_range td s i 0 = s := by
  cases td <;> rfl

/-- Claim C10: whenever a failure is signaled during temporary_buffer
construction (computing the distance or fill-initializing the elements;
block allocation reports failure by a null result, not a signal), the
constructor absorbs it: the block pointer ends null and the granted
length 0, the destructor trace is empty, and the teardown
destroy(buffer, buffer + len) destroys nothing. -/
theorem C10_temporary_buffer_ctor_absorbs (canAlloc : Nat → Bool) (maxLen : Nat)
    (distanceResult : Except Unit Nat) (sample : α)
    (trivialDefault trivialAssign td fillSignals : Bool)
    (hfail : distanceResult = Except.error () ∨ fillSignals = true) :
    (temporary_buffer_ctor canAlloc maxLen distanceResult sample
      trivialDefault trivialAssign td fillSignals).buffer = false ∧
    (temporary_buffer_ctor canAlloc maxLen distanceResult sample
      trivialDefault trivialAssign td fillSignals).len = 0 ∧
    (temporary_buffer_ctor canAlloc maxLen distanceResult sample
      trivialDefault trivialAssign td fillSignals).mem.dtorCalls = [] ∧
    destroy_range td
      (temporary_buffer_ctor canAlloc maxLen distanceResult sample
        trivialDefault trivialAssign td fillSignals).mem 0
      (temporary_buffer_ctor canAlloc maxLen distanceResult sample
        trivialDefault trivialAssign td fillSignals).len =
    (temporary_buffer_ctor canAlloc maxLen distanceResult sample
      trivialDefault trivialAssign td fillSignals).mem := by
  rcases hfail with h | h
  · subst h
    exact ⟨rfl, rfl, rfl, destroy_range_zero td _ 0⟩
  · subst h
    cases distanceResult with
    | error e =>
      cases e
      exact ⟨rfl, rfl, rfl, destroy_range_zero td _ 0⟩
    | ok d =>
      by_cases h2 : 0 < (allocate_buffer canAlloc maxLen d).2.2
      · simp only [temporary_buffer_ctor, if_pos h2, if_pos rfl]
        exact ⟨rfl, rfl, rfl, destroy_range_zero td _ 0⟩
      · have hz : (allocate_buffer canAlloc maxLen d).2.2 = 0 := by omega
        have hb : (allocate_buffer canAlloc maxLen d).2.1 = false :=
          alloc_loop_zero_flag canAlloc (if maxLen < d then maxLen else d) hz
        simp only [temporary_buffer_ctor, if_neg h2]
        refine ⟨hb, hz, rfl, ?_⟩
        show destroy_range td (emptyMem α) 0 (allocate_buffer canAlloc maxLen d).2.2 = emptyMem α
        rw [hz]
        exact destroy_range_zero td _ 0

/-- Witness for claim C10: a failure while computing the distance. -/
theorem C10_temporary_buffer_ctor_absorbs_witness :
    (temporary_buffer_ctor (fun _ => true) 4 (Except.error ()) (0 : Nat)
      false false false false).buffer = false ∧
    (temporary_buffer_ctor (fun _ => true) 4 (Except.error ()) (0 : Nat)
      false false false false).len = 0 ∧
    (temporary_buffer_ctor (fun _ => true) 4 (Except.error ()) (0 : Nat)
      false false false false).mem.dtorCalls = [] ∧
    destroy_range false
      (temporary_buffer_ctor (fun _ => true) 4 (Except.error ()) (0 : Nat)
        false false false false).mem 0
      (temporary_buffer_ctor (fun _ => true) 4 (Except.error ()) (0 : Nat)
        false false false false).len =
    (temporary_buffer_ctor (fun _ => true) 4 (Except.error ()) (0 : Nat)
      false false false false).mem :=
  C10_temporary_buffer_ctor_absorbs (fun _ => true) 4 (Except.error ()) 0
    false false false false (Or.inl rfl)

/-- Claim C4: immediately after a temporary_buffer construction that
grants a nonzero length, a non-trivially-default-constructible element
type has every granted slot initialized by filling from the caller-supplied
sample value *first (uninitialized_fill_n, not default construction),
while a trivially-default-constructible element type has all granted
slots left raw. -/
theorem C4_initialize_buffer_dispatch (canAlloc : Nat → Bool) (maxLen d : Nat) (sample : α)
    (trivialDefault trivialAssign td : Bool)
    (hlen : 0 < (temporary_buffer_ctor canAlloc maxLen (Except.ok d) sample
      trivialDefault trivialAssign td false).len) :
    (trivialDefault = true →
      (temporary_buffer_ctor canAlloc maxLen (Except.ok d) sample
        trivialDefault trivialAssign td false).mem.dest =
      List.replicate (temporary_buffer_ctor canAlloc maxLen (Except.ok d) sample
        trivialDefault trivialAssign td false).len Slot.raw) ∧
    (trivialDefault = false →
      ∀ i, i < (temporary_buffer_ctor canAlloc maxLen (Except.ok d) sample
        trivialDefault trivialAssign td false).len →
      (temporary_buffer_ctor canAlloc maxLen (Except.ok d) sample
        trivialDefault trivialAssign td false).mem.dest[i]? = some (Slot.live sample)) := by
  have hL : (temporary_buffer_ctor canAlloc maxLen (Except.ok d) sample
      trivialDefault trivialAssign td false).len = (allocate_buffer canAlloc maxLen d).2.2 := by
    by_cases h2 : 0 < (allocate_buffer canAlloc maxLen d).2.2
    · simp only [temporary_buffer_ctor, if_pos h2, if_neg Bool.false_ne_true]
    · simp only [temporary_buffer_ctor, if_neg h2]
  have h2 : 0 < (allocate_buffer canAlloc maxLen d).2.2 := by rw [← hL]; exact hlen
  have hmem : (temporary_buffer_ctor canAlloc maxLen (Except.ok d) sample
      trivialDefault trivialAssign td false).mem =
      initialize_buffer trivialDefault trivialAssign td sample
        ((allocate_buffer canAlloc maxLen d).2.2)
        (mkRaw α ((allocate_buffer canAlloc maxLen d).2.2)) := by
    simp only [temporary_buffer_ctor, if_pos h2, if_neg Bool.false_ne_true]
  cases trivialDefault with
  | true =>
    refine ⟨fun _ => ?_, fun h => absurd h (by simp)⟩
    rw [hmem, hL]
    rfl
  | false =>
    refine ⟨fun h => absurd h (by simp), fun _ i hi => ?_⟩
    rw [hL] at hi
    rw [hmem]
    show ((uninitialized_fill_n trivialAssign td none
      ((allocate_buffer canAlloc maxLen d).2.2) sample
      (mkRaw α ((allocate_buffer canAlloc maxLen d).2.2))).1).dest[i]? = some (Slot.live sample)
    rw [uninitialized_fill_n_none]
    have h := flatFillN_spec sample ((allocate_buffer canAlloc maxLen d).2.2) 0
      (mkRaw α ((allocate_buffer canAlloc maxLen d).2.2))
    exact h.2.2 i (by omega) (by omega) (by simpa [mkRaw] using hi)

/-- Witness for claim C4: a non-trivially-default-constructible type with
sample value 7, a granted length of 2. -/
theorem C4_initialize_buffer_dispatch_witness :
    ((false : Bool) = true →
      (temporary_buffer_ctor (fun _ => true) 4 (Except.ok 2) (7 : Nat)
        false false false false).mem.dest =
      List.replicate (temporary_buffer_ctor (fun _ => true) 4 (Except.ok 2) (7 : Nat)
        false false false false).len Slot.raw) ∧
    ((false : Bool) = false →
      ∀ i, i < (temporary_buffer_ctor (fun _ => true) 4 (Except.ok 2) (7 : Nat)
        false false false false).len →
      (temporary_buffer_ctor (fun _ => true) 4 (Except.ok 2) (7 : Nat)
        false false false false).mem.dest[i]? = some (Slot.live 7)) :=
  C4_initialize_buffer_dispatch (fun _ => true) 4 2 7 false false false
    (by simp [temporary_buffer_ctor, allocate_buffer, alloc_loop])

/-! ### auto_ptr (memory.h) -/

/-- Heap of exclusively-owned objects: `objs` lists the live object ids
(with multiplicity) and `doubleDeletes` counts deletes of ids that were
not live (undefined behavior in C++). -/
structure HeapState where
  objs : List Nat
  doubleDeletes : Nat
deriving DecidableEq

/-- Effect of `delete m_ptr`: null is a no-op; a live id is removed from
the heap; deleting a non-live id records undefined behavior. -/
def deleteObj (h : HeapState) : Option Nat → HeapState
  | none => h
  | some p =>
    if p ∈ h.objs then { h with objs := h.objs.erase p }
    else { h with doubleDeletes := h.doubleDeletes + 1 }

/-- memory.h auto_ptr::release(): `tmp = m_ptr; m_ptr = nullptr; return
tmp;`. Result is (new handle state, returned raw reference). -/
def auto_ptr_release (m : Option Nat) : Option Nat × Option Nat :=
  (none, m)

/-- memory.h auto_ptr(auto_ptr& rhs) : m_ptr(rhs.release()).
Result is (m_ptr of the new handle, new state of rhs). -/
def auto_ptr_copy_ctor (m : Option Nat) : Option Nat × Option Nat :=
  ((auto_ptr_release m).2, (auto_ptr_release m).1)

/-- memory.h auto_ptr::operator=(const auto_ptr& rhs):
`if (this != &rhs) { delete m_ptr; m_ptr = rhs.release(); }`.
`sameHandle` models the identity comparison this != &rhs; result is
(heap after, m_ptr of lhs after, m_ptr of rhs after). -/
def auto_ptr_assign (h : HeapState) (sameHandle : Bool) (lhs rhs : Option Nat) :
    HeapState × Option Nat × Option Nat :=
  if sameHandle then (h, lhs, rhs)
  else (deleteObj h lhs, (auto_ptr_release rhs).2, (auto_ptr_release rhs).1)

/-- memory.h auto_ptr::reset(p): `if (m_ptr != p) { delete m_ptr;
m_ptr = p; }`. Result is (heap after, m_ptr after). -/
def auto_ptr_reset (h : HeapState) (m p : Option Nat) : HeapState × Option Nat :=
  if m = p then (h, m)
  else (deleteObj h m, p)

/-- Claim C6: release() hands out the held reference and leaves the handle
empty; on an already-emptied handle it returns an empty reference with no
error; copy-construction transfers ownership through release(), leaving
the source empty and the new handle owning exactly what the source owned. -/
theorem C6_auto_ptr_release_ownership (m : Option Nat) :
    auto_ptr_release m = (none, m) ∧
    auto_ptr_release (auto_ptr_release m).1 = (none, none) ∧
    auto_ptr_copy_ctor m = (m, none) :=
  ⟨rfl, rfl, rfl⟩

/-- Claim C7: assignment between distinct handles deletes the currently
owned object first (its live count drops by one) and then takes ownership,
emptying the source; self-assignment (handle identity) is a no-op;
reset with the currently held reference is a no-op; and calling
reset(sameRef) twice in a row leaves exactly one instance alive. -/
theorem C7_auto_ptr_assign_reset (h : HeapState) (q : Nat) (rhs : Option Nat)
    (hq : q ∈ h.objs) :
    (∀ m1 m2, auto_ptr_assign h false m1 m2 = (deleteObj h m1, m2, none)) ∧
    ((auto_ptr_assign h false (some q) rhs).1.objs.count q = h.objs.count q - 1 ∧
      (auto_ptr_assign h false (some q) rhs).2.1 = rhs ∧
      (auto_ptr_assign h false (some q) rhs).2.2 = none) ∧
    (∀ m1 m2, auto_ptr_assign h true m1 m2 = (h, m1, m2)) ∧
    (∀ m1, auto_ptr_reset h m1 m1 = (h, m1)) ∧
    (h.objs.count q = 1 →
      (auto_ptr_reset (auto_ptr_reset h (some q) (some q)).1
        (auto_ptr_reset h (some q) (some q)).2 (some q)).1.objs.count q = 1 ∧
      (auto_ptr_reset (auto_ptr_reset h (some q) (some q)).1
        (auto_ptr_reset h (some q) (some q)).2 (some q)).2 = some q) := by
  refine ⟨fun m1 m2 => rfl, ⟨?_, rfl, rfl⟩, fun m1 m2 => rfl, ?_, ?_⟩
  · show (deleteObj h (some q)).objs.count q = h.objs.count q - 1
    simp only [deleteObj, if_pos hq]
    exact List.count_erase_self q h.objs
  · intro m1
    show (if m1 = m1 then (h, m1) else (deleteObj h m1, m1)) = (h, m1)
    exact if_pos rfl
  · intro hcount
    have hr : auto_ptr_reset h (some q) (some q) = (h, some q) := by
      show (if (some q : Option Nat) = some q then _ else _) = _
      exact if_pos rfl
    simp only [hr]
    exact ⟨hcount, trivial⟩

/-- Witness for claim C7: the heap holds object 5 exactly once. -/
theorem C7_auto_ptr_assign_reset_witness :
    (∀ m1 m2, auto_ptr_assign { objs := [5], doubleDeletes := 0 } false m1 m2 =
      (deleteObj { objs := [5], doubleDeletes := 0 } m1, m2, none)) ∧
    ((auto_ptr_assign { objs := [5], doubleDeletes := 0 } false (some 5) none).1.objs.count 5 =
        ({ objs := [5], doubleDeletes := 0 } : HeapState).objs.count 5 - 1 ∧
      (auto_ptr_assign { objs := [5], doubleDeletes := 0 } false (some 5) none).2.1 = none ∧
      (auto_ptr_assign { objs := [5], doubleDeletes := 0 } false (some 5) none).2.2 = none) ∧
    (∀ m1 m2, auto_ptr_assign { objs := [5], doubleDeletes := 0 } true m1 m2 =
      ({ objs := [5], doubleDeletes := 0 }, m1, m2)) ∧
    (∀ m1, auto_ptr_reset { objs := [5], doubleDeletes := 0 } m1 m1 =
      ({ objs := [5], doubleDeletes := 0 }, m1)) ∧
    (({ objs := [5], doubleDeletes := 0 } : HeapState).objs.count 5 = 1 →
      (auto_ptr_reset
        (auto_ptr_reset { objs := [5], doubleDeletes := 0 } (some 5) (some 5)).1
        (auto_ptr_reset { objs := [5], doubleDeletes := 0 } (some 5) (some 5)).2
        (some 5)).1.objs.count 5 = 1 ∧
      (auto_ptr_reset
        (auto_ptr_reset { objs := [5], doubleDeletes := 0 } (some 5) (some 5)).1
        (auto_ptr_reset { objs := [5], doubleDeletes := 0 } (some 5) (some 5)).2
        (some 5)).2 = some 5) :=
  C7_auto_ptr_assign_reset { objs := [5], doubleDeletes := 0 } 5 none (by decide)

/-! ### allocator (allocator.h) -/

/-- allocator.h allocator<T>::allocate(n): `if (n == 0) return nullptr;`
then storage from operator new. `newOracle` models operator new: `some b`
is a fresh block id, `none` models a thrown bad_alloc, reported upward as
an error by this primitive. -/
def allocator_allocate (newOracle : Nat → Option Nat) (n : Nat) : Except Unit (Option Nat) :=
  if n = 0 then Except.ok none
  else
    match newOracle n with
    | some b => Except.ok (some b)
    | none => Except.error ()

/-- allocator.h allocator<T>::deallocate(ptr, n): a null pointer returns
immediately; otherwise operator delete releases the block. -/
def allocator_deallocate (blocks : List Nat) (p : Option Nat) : List Nat :=
  match p with
  | none => blocks
  | some b => blocks.erase b

/-- Claim C9: allocate(0) returns a null result normally (never an error),
and deallocate of a null pointer leaves the heap untouched. -/
theorem C9_allocator_zero_and_null (newOracle : Nat → Option Nat) (blocks : List Nat) :
    allocator_allocate newOracle 0 = Except.ok none ∧
    allocator_deallocate blocks none = blocks :=
  ⟨rfl, rfl⟩

/-! ### Effect of the forward destruction loop (for claim C8) -/

theorem destroyAt_dtorCalls (s : MemState α) (i : Nat) :
    (destroyAt s i).dtorCalls = s.dtorCalls ++ [i] := by
  unfold destroyAt
  cases h : s.dest[i]? with
  | none => rfl
  | some sl => cases sl with
    | raw => rfl
    | live v => rfl

theorem destroyAt_length (s : MemState α) (i : Nat) :
    (destroyAt s i).dest.length = s.dest.length := by
  unfold destroyAt
  cases h : s.dest[i]? with
  | none => rfl
  | some sl => cases sl with
    | raw => rfl
    | live v => simp

theorem destroyAt_get_ne (s : MemState α) (i j : Nat) (hne : i ≠ j) :
    (destroyAt s i).dest[j]? = s.dest[j]? := by
  unfold destroyAt
  cases h : s.dest[i]? with
  | none => rfl
  | some sl => cases sl with
    | raw => rfl
    | live v => exact List.getElem?_set_ne hne

theorem destroyAt_get_self (s : MemState α) (i : Nat) (hi : i < s.dest.length) :
    (destroyAt s i).dest[i]? = some Slot.raw := by
  unfold destroyAt
  cases h : s.dest[i]? with
  | none =>
    exfalso
    have := List.getElem?_eq_none_iff.mp h
    omega
  | some sl => cases sl with
    | raw => exact h
    | live v => exact List.getElem?_set_self hi

theorem range_map_aux (i m : Nat) :
    (List.range (m + 1)).map (fun j => i + j) =
    i :: (List.range m).map (fun j => i + 1 + j) := by
  rw [List.range_succ_eq_map, List.map_cons, List.map_map]
  congr 1
  apply List.map_congr_left
  intro a _
  simp only [Function.comp_apply]
  omega

theorem destroyFwd_spec : ∀ (m i : Nat) (s : MemState α),
    ((destroyFwd false s i m).dtorCalls =
      s.dtorCalls ++ (List.range m).map (fun j => i + j)) ∧
    ((destroyFwd false s i m).dest.length = s.dest.length) ∧
    (∀ j, j < i → (destroyFwd false s i m).dest[j]? = s.dest[j]?) ∧
    (∀ j, i ≤ j → j < i + m → j < s.dest.length →
      (destroyFwd false s i m).dest[j]? = some Slot.raw) := by
  intro m
  induction m with
  | zero =>
    intro i s
    exact ⟨by simp [destroyFwd], rfl, fun j _ => rfl, fun j h1 h2 _ => absurd h2 (by omega)⟩
  | succ m ih =>
    intro i s
    have hstep : destroyFwd false s i (m + 1) = destroyFwd false (destroyAt s i) (i + 1) m := rfl
    obtain ⟨ih1, ih2, ih3, ih4⟩ := ih (i + 1) (destroyAt s i)
    refine ⟨?_, ?_, ?_, ?_⟩
    · rw [hstep, ih1, destroyAt_dtorCalls, range_map_aux, List.append_assoc,
        List.singleton_append]
    · rw [hstep, ih2, destroyAt_length]
    · intro j hj
      rw [hstep, ih3 j (by omega)]
      exact destroyAt_get_ne s i j (by omega)
    · intro j h1 h2 h3
      rw [hstep]
      rcases Nat.eq_or_lt_of_le h1 with heq | hlt
      · subst heq
        rw [ih3 i (by omega)]
        exact destroyAt_get_self s i h3
      · exact ih4 j (by omega) (by omega) (by rw [destroyAt_length]; exact h3)

/-- Claim C8: destroy(first, last) is a no-op bulk dispatch when the
element type is trivially destructible (hence destroying an
already-destroyed slot of such a type, singly or as a range, is a no-op),
and for a non-trivially-destructible type it invokes the destructor on
every slot of [i, i+m) in forward order (trace i, i+1, ..., i+m-1),
leaving each such slot raw. -/
theorem C8_destroy_range_dispatch (s : MemState α) (i m : Nat) (p : Option Nat) :
    destroy_range true s i m = s ∧
    destroy true s p = s ∧
    ((destroy_range false s i m).dtorCalls =
      s.dtorCalls ++ (List.range m).map (fun j => i + j)) ∧
    (∀ j, i ≤ j → j < i + m → j < s.dest.length →
      (destroy_range false s i m).dest[j]? = some Slot.raw) := by
  refine ⟨rfl, rfl, ?_, ?_⟩
  · exact (destroyFwd_spec m i s).1
  · exact fun j h1 h2 h3 => (destroyFwd_spec m i s).2.2.2 j h1 h2 h3
